import Mathlib

/-!
Shallow embedding of the ambient sound mixer of the ucanduit repository
(the `AmbientSoundsTool` class, HTML5/hybrid variant), together with
proofs about its channel state machine, incremental loader, rotation
scheduler and visualization sampler.

Volumes are rationals (real-valued semantics of the JS numbers).  The
per-channel state mirrors the object initialized by the source
(`audioElements`, `availableFiles`, `currentIndex`, `isPlaying`,
`config`, `loaded`, `volume`, `rotationTimeout`).  The asynchronous
collaborators (directory scan results, per-file load success, random
draws, `Math.sin`, `Math.random`, wall-clock time) are supplied as
explicit oracle parameters, so every definition is executable.
-/

namespace AmbientSounds

/-- One loaded playable unit (`{ file, audioBuffer | audio, useWebAudio }`
in the source); only the identifying file name matters for the
state-machine model. -/
structure AudioElement where
  file : String
deriving DecidableEq, Repr

/-- The per-channel configuration entry built by
`discoverAudioDirectories` (`{ directory, baseGain, displayName,
fileCount }`); only `baseGain` enters the state machine. -/
structure SoundConfig where
  baseGain : ℚ
deriving DecidableEq, Repr

/-- Per-channel state, following the object created in `initialize()`
and `createAmbientSound`.  `rotationTimeout` is `true` when the channel
holds a (non-null) pending rotation timer handle. -/
structure Sound where
  audioElements : List AudioElement
  availableFiles : List String
  currentIndex : Nat
  isPlaying : Bool
  config : SoundConfig
  loaded : Bool
  volume : ℚ
  rotationTimeout : Bool
deriving DecidableEq, Repr

/-- The placeholder channel state installed by `initialize()` for a
configuration before anything is loaded. -/
def initialSound (config : SoundConfig) : Sound :=
  { audioElements := []
    availableFiles := []
    currentIndex := 0
    isPlaying := false
    config := config
    loaded := false
    volume := 0
    rotationTimeout := false }

/-- Lower-cased character data of a file name, as produced by
`file.toLowerCase()` in the source. -/
def lowerData (f : String) : List Char := f.data.map Char.toLower

/-- The check `file.toLowerCase().endsWith('.mp3')` from
`createAmbientSound`. -/
def isMp3File (f : String) : Bool := List.isSuffixOf ".mp3".data (lowerData f)

/-- The check `file.toLowerCase().endsWith('.ogg')` from
`createAmbientSound`. -/
def isOggFile (f : String) : Bool := List.isSuffixOf ".ogg".data (lowerData f)

/-- Format preference of `createAmbientSound`: use the MP3 files when
any exist, otherwise the OGG files
(`mp3Files.length > 0 ? mp3Files : oggFiles`). -/
def filesToUse (availableFiles : List String) : List String :=
  let mp3Files := availableFiles.filter isMp3File
  let oggFiles := availableFiles.filter isOggFile
  if mp3Files.length > 0 then mp3Files else oggFiles

/-- Oracle for the asynchronous collaborators of one channel load:
the file list returned by `scanDirectory`, which individual
`loadSingleAudioFile` calls succeed, and the random draw used by
`startSound`. -/
structure LoadEnv where
  scanResult : List String
  loadOk : String → Bool
  randNat : Nat

/-- Result of `createAmbientSound`: the fields copied back into the
channel, the files queued for background loading, and the load attempts
made eagerly. -/
structure LoadedSound where
  audioElements : List AudioElement
  availableFiles : List String
  loaded : Bool
  remainingFiles : List String
  loadsAttempted : List String
deriving DecidableEq, Repr

/-- `createAmbientSound(config)`: scan the directory, prefer MP3 over
OGG, load only the first file eagerly (`loaded` becomes `true` exactly
when that load succeeds) and queue the rest for background loading. -/
def createAmbientSound (env : LoadEnv) : LoadedSound :=
  let files := env.scanResult
  match filesToUse files with
  | [] => ⟨[], files, false, [], []⟩
  | firstFile :: rest =>
    if env.loadOk firstFile then
      ⟨[⟨firstFile⟩], files, true, rest, [firstFile]⟩
    else
      ⟨[], files, false, [], [firstFile]⟩

/-- `startSound(soundName)`: guards (`already playing`, `not loaded`,
`no audio elements`), then picks a uniformly random element, marks the
channel playing and schedules the rotation timer.  The returned boolean
reports whether a rotation timer was scheduled. -/
def startSound (rand : Nat) (s : Sound) : Sound × Bool :=
  if s.isPlaying = true then (s, false)
  else if s.loaded = false then (s, false)
  else if s.audioElements.length = 0 then (s, false)
  else
    let randomIndex := rand % s.audioElements.length
    ({ s with isPlaying := true
              currentIndex := randomIndex
              rotationTimeout := true }, true)

/-- `stopSound(soundName)` on a present channel: halt playback and
clear the rotation timeout (`clearTimeout`; the handle becomes null). -/
def stopSound (s : Sound) : Sound :=
  let s1 := if s.isPlaying = true then { s with isPlaying := false } else s
  if s1.rotationTimeout = true then { s1 with rotationTimeout := false } else s1

/-- Side effects of one `setVolume` call that the spec talks about:
which load attempts it triggered and whether it scheduled a rotation
timer. -/
structure VolumeEffects where
  loadsAttempted : List String
  timerScheduled : Bool
deriving DecidableEq, Repr

/-- The lazy-load block of `setVolume`: when `volume > 0 && !sound.loaded`,
run `createAmbientSound` and copy `audioElements`, `availableFiles` and
`loaded` back onto the channel.  Also returns the load attempts made. -/
def lazyLoadStep (env : LoadEnv) (volume : ℚ) (s : Sound) : Sound × List String :=
  if 0 < volume ∧ s.loaded = false then
    let ls := createAmbientSound env
    ({ s with audioElements := ls.audioElements
              availableFiles := ls.availableFiles
              loaded := ls.loaded }, ls.loadsAttempted)
  else (s, [])

/-- The start block of `setVolume`: when
`volume > 0 && !sound.isPlaying && sound.loaded`, call `startSound`. -/
def startStep (env : LoadEnv) (volume : ℚ) (s : Sound) : Sound × Bool :=
  if 0 < volume ∧ s.isPlaying = false ∧ s.loaded = true then
    startSound env.randNat s
  else (s, false)

/-- The stop block of `setVolume`: when
`volume === 0 && sound.isPlaying`, call `stopSound`. -/
def stopStep (volume : ℚ) (s : Sound) : Sound :=
  if volume = 0 ∧ s.isPlaying = true then stopSound s else s

/-- `setVolume(soundName, volume)` on a present channel: normalize the
percent against `baseGain`, lazily load when `volume > 0` and the
channel is unloaded, start playback when `volume > 0`, the channel is
loaded and not yet playing, and stop playback when `volume === 0`. -/
def setVolume (env : LoadEnv) (s : Sound) (volume : ℚ) : Sound × VolumeEffects :=
  let s1 := { s with volume := volume / 100 * s.config.baseGain }
  let lazy := lazyLoadStep env volume s1
  let started := startStep env volume lazy.1
  (stopStep volume started.1, ⟨lazy.2, started.2⟩)

/-- Iterated `setVolume` calls on one channel (the volume slider being
moved repeatedly). -/
def applySetVolumeCalls (env : LoadEnv) (s : Sound) : List ℚ → Sound
  | [] => s
  | p :: ps => applySetVolumeCalls env (setVolume env s p).1 ps

/-- The mixer-level channel map `this.sounds` (JS object keyed by sound
name). -/
def getSound (sounds : List (String × Sound)) (key : String) : Option Sound :=
  List.lookup key sounds

/-- Replace the entry for `key` in the channel map. -/
def setSound (sounds : List (String × Sound)) (key : String) (s : Sound) :
    List (String × Sound) :=
  sounds.map (fun kv => if kv.1 = key then (key, s) else kv)

/-- `setVolume(soundName, volume)` at the mixer level, including the
guard `if (!this.sounds[soundName]) return;`. -/
def setVolumeTop (env : LoadEnv) (sounds : List (String × Sound)) (key : String)
    (volume : ℚ) : List (String × Sound) :=
  match getSound sounds key with
  | none => sounds
  | some s => setSound sounds key (setVolume env s volume).1

/-- `stopSound(soundName)` at the mixer level, including the guard
`if (!this.sounds[soundName]) return;`. -/
def stopSoundTop (sounds : List (String × Sound)) (key : String) :
    List (String × Sound) :=
  match getSound sounds key with
  | none => sounds
  | some s => setSound sounds key (stopSound s)

/-- A fixed oracle used to instantiate theorems at concrete inputs:
an empty directory scan where every load fails. -/
def envEmpty : LoadEnv := ⟨[], fun _ => false, 0⟩

/-- Result of one rotation: the updated channel and whether the next
rotation was scheduled. -/
structure RotateResult where
  sound : Sound
  rescheduled : Bool
deriving DecidableEq, Repr

/-- The candidate indices built by `rotateSound`:
all element indices other than the current one. -/
def availableIndices (s : Sound) : List Nat :=
  (List.range s.audioElements.length).filter (fun i => i != s.currentIndex)

/-- `rotateSound(soundName)` modelled as one atomic rotation: the guard
`!sound.isPlaying || sound.audioElements.length <= 1` aborts without
rescheduling; otherwise a random different index is selected, made
current, and the next rotation is scheduled.  `rand` models the
`Math.random()` draw as a uniformly chosen position. -/
def rotateSound (rand : Nat) (s : Sound) : RotateResult :=
  if s.isPlaying = false ∨ s.audioElements.length ≤ 1 then ⟨s, false⟩
  else
    let avail := availableIndices s
    if 0 < avail.length then
      ⟨{ s with currentIndex := avail.getD (rand % avail.length) 0
                rotationTimeout := true }, true⟩
    else ⟨s, false⟩

/-- A concrete playing two-asset channel. -/
def soundTwo : Sound :=
  { audioElements := [⟨"a.mp3"⟩, ⟨"b.mp3"⟩]
    availableFiles := ["a.mp3", "b.mp3"]
    currentIndex := 0
    isPlaying := true
    config := ⟨1⟩
    loaded := true
    volume := 1/5
    rotationTimeout := true }

/-- `loadSingleAudioFile(file)`: resolves to a playable element, or to
`null` (`none`) when both backends fail or the 10 s timeout fires; it
never rejects.  The oracle `loadOk` decides each file's outcome. -/
def loadSingleAudioFile (loadOk : String → Bool) (file : String) :
    Option AudioElement :=
  if loadOk file = true then some ⟨file⟩ else none

/-- The successive slices `remainingFiles.slice(startIndex, endIndex)`
visited by `loadNextBatch` with `backgroundBatchSize = 3`.  The `fuel`
argument only bounds the recursion depth; `files.length` is always
enough fuel because every batch consumes at least one file. -/
def batchSlicesAux (files : List String) : Nat → Nat → List (List String)
  | _, 0 => []
  | startIndex, fuel + 1 =>
    if startIndex < files.length then
      let endIndex := min (startIndex + 3) files.length
      ((files.drop startIndex).take (endIndex - startIndex))
        :: batchSlicesAux files endIndex fuel
    else []

/-- All batches of one background-loading pass
(`loadNextBatch(sound, remainingFiles, 0)` and its reschedules). -/
def batchSlices (files : List String) : List (List String) :=
  batchSlicesAux files 0 files.length

/-- The 500 ms pause `setTimeout(..., 500)` between consecutive batches:
total delay of a background pass, in milliseconds. -/
def totalBatchDelayMs (files : List String) : Nat :=
  500 * ((batchSlices files).length - 1)

/-- One batch body of `loadNextBatch`: `Promise.all` over independent
loads that never reject (failures resolve to `null`), filter the nulls,
append the successes to the pool. -/
def runBatch (loadOk : String → Bool) (pool : List AudioElement)
    (batch : List String) : List AudioElement :=
  pool ++ (batch.map (loadSingleAudioFile loadOk)).filterMap id

/-- A whole background-loading pass over the given batches. -/
def runAllBatches (loadOk : String → Bool) (pool : List AudioElement)
    (batches : List (List String)) : List AudioElement :=
  batches.foldl (runBatch loadOk) pool

/-- A concrete 12-file channel directory. -/
def twelveFiles : List String :=
  ["a01.mp3", "a02.mp3", "a03.mp3", "a04.mp3", "a05.mp3", "a06.mp3",
   "a07.mp3", "a08.mp3", "a09.mp3", "a10.mp3", "a11.mp3", "a12.mp3"]

/-- Oracle under which exactly the file `a.mp3` loads successfully. -/
def mixedOk : String → Bool := fun f => f == "a.mp3"

/-- Oracle for the numeric collaborators of `getCombinedAudioData`:
`Math.sin`, `Math.random` (`rand k i` is the draw made for buffer index
`i` by the `k`-th active channel processed — skipped channels consume no
randomness) and `Date.now() * 0.001`. -/
structure VizEnv where
  sin : ℚ → ℚ
  rand : Nat → Nat → ℚ
  time : ℚ

/-- Truncation toward zero of a JS number. -/
def ratTrunc (x : ℚ) : Int := if x < 0 then -(Int.floor (-x)) else Int.floor x

/-- Storing a JS number into a `Uint8Array` slot (`ToUint8`): truncate
toward zero, then reduce mod 256. -/
def toUint8 (x : ℚ) : Nat := ((ratTrunc x) % 256).toNat

/-- The `amplitude` computed for one active channel at buffer index `i`:
`volume*255 * (0.6 + 0.4*sin(freq*2 + time*0.8)) *
(0.8 + 0.3*sin(freq*0.5 + time*0.3))` with `freq = (i/256)*10`. -/
def channelAmplitude (env : VizEnv) (volume : ℚ) (i : Nat) : ℚ :=
  let freq : ℚ := ((i : ℚ) / 256) * 10
  (volume * 255)
    * (6/10 + 4/10 * env.sin (freq * 2 + env.time * (8/10)))
    * (8/10 + 3/10 * env.sin (freq * (5/10) + env.time * (3/10)))

/-- The inner loop of `getCombinedAudioData` for one active channel:
`combinedData[i] = Math.min(255, combinedData[i] + amplitude *
(0.7 + 0.3 * Math.random()))`, walking the buffer from index `i`. -/
def addChannelFrom (env : VizEnv) (k : Nat) (volume : ℚ) :
    Nat → List Nat → List Nat
  | _, [] => []
  | i, v :: rest =>
    toUint8 (min 255 ((v : ℚ)
        + channelAmplitude env volume i * (7/10 + 3/10 * env.rand k i)))
      :: addChannelFrom env k volume (i + 1) rest

/-- One active channel's full pass over the shared buffer. -/
def addChannelData (env : VizEnv) (k : Nat) (volume : ℚ)
    (buf : List Nat) : List Nat :=
  addChannelFrom env k volume 0 buf

/-- The `sound.isPlaying && sound.volume > 0` filter of
`getCombinedAudioData`. -/
def isActiveSound (s : Sound) : Bool :=
  s.isPlaying && decide (0 < s.volume)

/-- One channel step of `getCombinedAudioData`: active channels write
into the buffer and set the `hasActiveSound` flag, all others are
skipped.  The accumulator carries (buffer, flag, count of active
channels processed). -/
def mixStep (env : VizEnv) (acc : List Nat × Bool × Nat) (s : Sound) :
    List Nat × Bool × Nat :=
  if isActiveSound s = true then
    (addChannelData env acc.2.2 s.volume acc.1, true, acc.2.2 + 1)
  else acc

/-- `getCombinedAudioData()`: start from `new Uint8Array(256)`,
accumulate every active channel, and return `null` when no channel was
active. -/
def getCombinedAudioData (env : VizEnv) (sounds : List Sound) :
    Option (List Nat) :=
  let res := sounds.foldl (mixStep env) (List.replicate 256 0, false, 0)
  if res.2.1 = true then some res.1 else none

/-- A channel state with positive volume that is not playing, as left by
`setVolume` with a positive percent on a channel whose eager load
failed. -/
def stuckSound : Sound :=
  { audioElements := []
    availableFiles := []
    currentIndex := 0
    isPlaying := false
    config := ⟨1⟩
    loaded := false
    volume := 1/2
    rotationTimeout := false }

/-- A fixed numeric oracle for the sampler. -/
def envViz0 : VizEnv := ⟨fun _ => 0, fun _ _ => 0, 0⟩

/-- State of an in-progress crossfade inside `rotateSound`:
`fadingOut` is true during the fade-out interval and false during the
fade-in interval, `level` is the element volume being ramped in steps of
0.1 every 200 ms, and `target` is the channel volume captured when the
rotation began (`const currentVolume = sound.volume`). -/
structure FadeState where
  fadingOut : Bool
  level : ℚ
  target : ℚ
deriving DecidableEq, Repr

/-- Per-channel state as the rotation scheduler sees it.
`rotationTimeout` is the channel-owned pending timer handle
(`sound.rotationTimeout`); `fade` is the in-progress crossfade interval
of `rotateSound`, whose handle lives in a local variable of
`rotateSound` and is NOT owned by the channel. -/
structure RotChannel where
  elemsCount : Nat
  currentIndex : Nat
  isPlaying : Bool
  volume : ℚ
  rotationTimeout : Bool
  fade : Option FadeState
deriving DecidableEq, Repr

/-- A rotation step observed while the scheduler runs, tagged with the
channel's `isPlaying` flag at the moment the step executed. -/
inductive RotEvent where
  | fadeOutTick (playing : Bool)
  | assetSwitch (playing : Bool)
  | fadeInTick (playing : Bool)
deriving DecidableEq, Repr

/-- The asynchronous tasks of the rotator: the rotation timeout firing
(the `setTimeout` callback, which checks `sound.isPlaying` and calls
`rotateSound`), and one 200 ms tick of the crossfade interval; `rand`
models the `Math.random()` draw consumed if the tick performs the asset
switch. -/
inductive RotTask where
  | timerFire : RotTask
  | fadeTick (rand : Nat) : RotTask
deriving DecidableEq, Repr

/-- One scheduler step.  A cancelled timeout never fires
(`rotationTimeout = false` makes `timerFire` a no-op); a pending one
fires once, re-checks `isPlaying` and the `<= 1` element guard, and
starts the fade-out interval.  A fade tick ramps the level by 0.1; when
the fade-out level reaches 0.1 the tick pauses the old element, picks a
random different index, starts the fade-in and REschedules the rotation
timeout — with no `isPlaying` re-check, exactly as in the source. -/
def stepTask (c : RotChannel) : RotTask → RotChannel × List RotEvent
  | RotTask.timerFire =>
    if c.rotationTimeout = true then
      let c1 : RotChannel := { c with rotationTimeout := false }
      if c1.isPlaying = true then
        if c1.elemsCount ≤ 1 then (c1, [])
        else ({ c1 with fade := some ⟨true, c1.volume, c1.volume⟩ }, [])
      else (c1, [])
    else (c, [])
  | RotTask.fadeTick rand =>
    match c.fade with
    | none => (c, [])
    | some fs =>
      if fs.fadingOut = true then
        if 1/10 < fs.level then
          ({ c with fade := some ⟨true, fs.level - 1/10, fs.target⟩ },
            [RotEvent.fadeOutTick c.isPlaying])
        else
          let avail := (List.range c.elemsCount).filter
            (fun i => i != c.currentIndex)
          if 0 < avail.length then
            let nextIndex := avail.getD (rand % avail.length) 0
            ({ c with currentIndex := nextIndex,
                      fade := some ⟨false, 0, fs.target⟩,
                      rotationTimeout := true },
              [RotEvent.assetSwitch c.isPlaying])
          else ({ c with fade := none }, [])
      else
        if fs.level < fs.target then
          let newLevel := min fs.target (fs.level + 1/10)
          ({ c with fade := some ⟨false, newLevel, fs.target⟩ },
            [RotEvent.fadeInTick c.isPlaying])
        else ({ c with fade := none }, [])

/-- `stopSound` as it acts on the rotator state: halt playback and clear
the channel-owned rotation timeout.  The crossfade interval is a local
variable of `rotateSound`, so it is left untouched. -/
def rotStopSound (c : RotChannel) : RotChannel :=
  let c1 : RotChannel :=
    if c.isPlaying = true then { c with isPlaying := false } else c
  if c1.rotationTimeout = true then { c1 with rotationTimeout := false }
  else c1

/-- Run a sequence of scheduler tasks, collecting the events. -/
def runTasks (c : RotChannel) : List RotTask → RotChannel × List RotEvent
  | [] => (c, [])
  | t :: ts =>
    let st := stepTask c t
    let rest := runTasks st.1 ts
    (rest.1, st.2 ++ rest.2)

/-- A playing two-asset channel whose rotation timer is pending and
whose volume is 0.05 (so the fade-out completes on its first tick). -/
def chanMidFade : RotChannel :=
  { elemsCount := 2
    currentIndex := 0
    isPlaying := true
    volume := 1/20
    rotationTimeout := true
    fade := none }

/-- Oracle for a channel directory with one MP3 file whose load always
fails. -/
def envFail : LoadEnv := ⟨["a.mp3"], fun _ => false, 0⟩

theorem stopSound_isPlaying (s : Sound) : (stopSound s).isPlaying = false := by
  simp only [stopSound]
  split_ifs <;> simp_all

theorem stopSound_volume (s : Sound) : (stopSound s).volume = s.volume := by
  simp only [stopSound]
  split_ifs <;> simp_all

theorem stopSound_config (s : Sound) : (stopSound s).config = s.config := by
  simp only [stopSound]
  split_ifs <;> simp_all

theorem startSound_volume (rand : Nat) (s : Sound) :
    ((startSound rand s).1).volume = s.volume := by
  simp only [startSound]
  split_ifs <;> simp_all

theorem startSound_config (rand : Nat) (s : Sound) :
    ((startSound rand s).1).config = s.config := by
  simp only [startSound]
  split_ifs <;> simp_all

theorem lazyLoadStep_volume (env : LoadEnv) (p : ℚ) (s : Sound) :
    ((lazyLoadStep env p s).1).volume = s.volume := by
  simp only [lazyLoadStep]
  split_ifs <;> simp_all

theorem lazyLoadStep_config (env : LoadEnv) (p : ℚ) (s : Sound) :
    ((lazyLoadStep env p s).1).config = s.config := by
  simp only [lazyLoadStep]
  split_ifs <;> simp_all

theorem lazyLoadStep_isPlaying (env : LoadEnv) (p : ℚ) (s : Sound) :
    ((lazyLoadStep env p s).1).isPlaying = s.isPlaying := by
  simp only [lazyLoadStep]
  split_ifs <;> simp_all

theorem startStep_volume (env : LoadEnv) (p : ℚ) (s : Sound) :
    ((startStep env p s).1).volume = s.volume := by
  simp only [startStep]
  split_ifs <;> simp [startSound_volume]

theorem startStep_config (env : LoadEnv) (p : ℚ) (s : Sound) :
    ((startStep env p s).1).config = s.config := by
  simp only [startStep]
  split_ifs <;> simp [startSound_config]

theorem stopStep_volume (p : ℚ) (s : Sound) :
    (stopStep p s).volume = s.volume := by
  simp only [stopStep]
  split_ifs <;> simp [stopSound_volume]

theorem stopStep_config (p : ℚ) (s : Sound) :
    (stopStep p s).config = s.config := by
  simp only [stopStep]
  split_ifs <;> simp [stopSound_config]

theorem setVolume_fst_volume (env : LoadEnv) (s : Sound) (p : ℚ) :
    ((setVolume env s p).1).volume = p / 100 * s.config.baseGain := by
  simp only [setVolume, stopStep_volume, startStep_volume, lazyLoadStep_volume]

theorem setVolume_fst_config (env : LoadEnv) (s : Sound) (p : ℚ) :
    ((setVolume env s p).1).config = s.config := by
  simp only [setVolume, stopStep_config, startStep_config, lazyLoadStep_config]

/-- After a `setVolume` call with percent `0`, the channel is not
playing: the lazy-load and start blocks are skipped and the final
`volume === 0` block stops a playing channel. -/
theorem setVolume_zero_not_playing (env : LoadEnv) (s : Sound) :
    ((setVolume env s 0).1).isPlaying = false := by
  simp only [setVolume, startStep, lazyLoadStep, stopStep]
  norm_num
  split_ifs with h <;> simp_all [stopSound_isPlaying]

/-- A single `setVolume` call establishes the zero-volume/stopped
invariant (given the positive `baseGain` the source always assigns). -/
theorem setVolume_zero_volume_stops (env : LoadEnv) (s : Sound) (p : ℚ)
    (hg : 0 < s.config.baseGain)
    (hv : ((setVolume env s p).1).volume = 0) :
    ((setVolume env s p).1).isPlaying = false := by
  have hvol := setVolume_fst_volume env s p
  rw [hv] at hvol
  have hp : p = 0 := by
    rcases mul_eq_zero.mp hvol.symm with h | h
    · have : p = 0 := by
        field_simp at h
        exact h
      exact this
    · exact absurd h (ne_of_gt hg)
  rw [hp]
  exact setVolume_zero_not_playing env s

theorem applySetVolumeCalls_append (env : LoadEnv) (s : Sound) (ps : List ℚ)
    (p : ℚ) :
    applySetVolumeCalls env s (ps ++ [p])
      = (setVolume env (applySetVolumeCalls env s ps) p).1 := by
  induction ps generalizing s with
  | nil => rfl
  | cons q qs ih => simp [applySetVolumeCalls, ih]

theorem applySetVolumeCalls_config (env : LoadEnv) (s : Sound) (ps : List ℚ) :
    (applySetVolumeCalls env s ps).config = s.config := by
  induction ps generalizing s with
  | nil => rfl
  | cons q qs ih => simp [applySetVolumeCalls, ih, setVolume_fst_config]

/-- C1: after any sequence of `setVolume` calls ending in at least one
call, a channel whose `volume` is `0` has `isPlaying = false` — setting
volume to zero stops playback rather than muting.  The hypothesis
`0 < baseGain` reflects the base gains (0.3–0.6) the source assigns to
every discovered channel. -/
theorem C1_zero_volume_not_playing (env : LoadEnv) (s : Sound) (ps : List ℚ)
    (p : ℚ) (hg : 0 < s.config.baseGain)
    (hv : (applySetVolumeCalls env s (ps ++ [p])).volume = 0) :
    (applySetVolumeCalls env s (ps ++ [p])).isPlaying = false := by
  rw [applySetVolumeCalls_append] at hv ⊢
  have hg2 : 0 < (applySetVolumeCalls env s ps).config.baseGain := by
    rw [applySetVolumeCalls_config]; exact hg
  exact setVolume_zero_volume_stops env _ p hg2 hv

/-- Witness for C1: a concrete channel, the call sequence 40%, 0%. -/
theorem C1_witness :
    (applySetVolumeCalls envEmpty (initialSound ⟨1⟩) ([40] ++ [0])).isPlaying
      = false :=
  C1_zero_volume_not_playing envEmpty (initialSound ⟨1⟩) [40] 0
    (by simp [initialSound])
    (by rw [applySetVolumeCalls_append, setVolume_fst_volume]; simp)

/-- C10: `setVolume` with a key absent from the channel map leaves the
map unchanged (the `if (!this.sounds[soundName]) return;` guard), and
likewise for `stopSound`.  Both are total functions: no error is
raised. -/
theorem C10_missing_key_no_change (env : LoadEnv)
    (sounds : List (String × Sound)) (key : String) (p : ℚ)
    (h : getSound sounds key = none) :
    setVolumeTop env sounds key p = sounds ∧ stopSoundTop sounds key = sounds := by
  constructor
  · simp [setVolumeTop, h]
  · simp [stopSoundTop, h]

/-- Witness for C10: a one-channel map and a key that is not present. -/
theorem C10_witness :
    setVolumeTop envEmpty [("rain", initialSound ⟨3/5⟩)] "cafe" 40
        = [("rain", initialSound ⟨3/5⟩)]
      ∧ stopSoundTop [("rain", initialSound ⟨3/5⟩)] "cafe"
        = [("rain", initialSound ⟨3/5⟩)] :=
  C10_missing_key_no_change envEmpty [("rain", initialSound ⟨3/5⟩)] "cafe" 40
    (by decide)

theorem length_filter_ne_range (n cur : Nat) (h : cur < n) :
    ((List.range n).filter (fun i => i != cur)).length = n - 1 := by
  induction n with
  | zero => omega
  | succ m ih =>
    rw [List.range_succ, List.filter_append]
    rcases Nat.lt_or_ge cur m with hlt | hge
    · have hm : (m != cur) = true := by simp; omega
      simp [hm, ih hlt]
      omega
    · have hcur : cur = m := by omega
      subst hcur
      have hall : (List.range cur).filter (fun i => i != cur) = List.range cur := by
        rw [List.filter_eq_self]
        intro a ha
        simp [List.mem_range] at ha ⊢
        omega
      simp [hall]

theorem mem_availableIndices (s : Sound) (i : Nat) :
    i ∈ availableIndices s
      ↔ i < s.audioElements.length ∧ i ≠ s.currentIndex := by
  simp [availableIndices, List.mem_filter, List.mem_range]

theorem nodup_availableIndices (s : Sound) : (availableIndices s).Nodup :=
  (List.nodup_range _).filter _

theorem length_availableIndices (s : Sound)
    (hc : s.currentIndex < s.audioElements.length) :
    (availableIndices s).length = s.audioElements.length - 1 :=
  length_filter_ne_range _ _ hc

/-- C3: while playing with at least two loaded assets, a rotation picks a
current index different from the previous one, drawn uniformly (the
candidate list enumerates exactly the other indices, without duplicates,
and the draw indexes it directly), and reschedules; with one or fewer
assets or when not playing it changes nothing and does not reschedule. -/
theorem C3_rotation_distinct_uniform (s : Sound) (rand : Nat) :
    (s.isPlaying = true → 2 ≤ s.audioElements.length →
        s.currentIndex < s.audioElements.length →
        ((rotateSound rand s).sound.currentIndex ≠ s.currentIndex
          ∧ (rotateSound rand s).sound.currentIndex < s.audioElements.length
          ∧ (rotateSound rand s).rescheduled = true
          ∧ (availableIndices s).length = s.audioElements.length - 1
          ∧ (availableIndices s).Nodup
          ∧ (∀ i, i ∈ availableIndices s
                ↔ i < s.audioElements.length ∧ i ≠ s.currentIndex)
          ∧ (∀ j, j < (availableIndices s).length →
              (rotateSound j s).sound.currentIndex
                = (availableIndices s).getD j 0)))
      ∧ ((s.isPlaying = false ∨ s.audioElements.length ≤ 1) →
          rotateSound rand s = ⟨s, false⟩) := by
  constructor
  · intro hp h2 hc
    have hguard : ¬ (s.isPlaying = false ∨ s.audioElements.length ≤ 1) := by
      simp [hp]
      omega
    have hlen : (availableIndices s).length = s.audioElements.length - 1 :=
      length_availableIndices s hc
    have hpos : 0 < (availableIndices s).length := by omega
    have hsel : ∀ j, (rotateSound j s).sound.currentIndex
        = (availableIndices s).getD (j % (availableIndices s).length) 0 := by
      intro j
      simp [rotateSound, hguard, hpos]
    have hmem : ∀ j,
        (availableIndices s).getD (j % (availableIndices s).length) 0
          ∈ availableIndices s := by
      intro j
      have hj : j % (availableIndices s).length < (availableIndices s).length :=
        Nat.mod_lt _ hpos
      rw [List.getD_eq_getElem _ _ hj]
      exact List.getElem_mem hj
    refine ⟨?_, ?_, ?_, hlen, nodup_availableIndices s, mem_availableIndices s, ?_⟩
    · have h := (mem_availableIndices s _).mp (hmem rand)
      rw [hsel rand]
      exact h.2
    · have h := (mem_availableIndices s _).mp (hmem rand)
      rw [hsel rand]
      exact h.1
    · simp [rotateSound, hguard, hpos]
    · intro j hj
      rw [hsel j, Nat.mod_eq_of_lt hj]
  · intro hg
    simp [rotateSound, hg]

/-- Witness for C3: rotating the concrete two-asset channel moves off
index 0. -/
theorem C3_witness :
    (rotateSound 0 soundTwo).sound.currentIndex ≠ soundTwo.currentIndex :=
  ((C3_rotation_distinct_uniform soundTwo 0).1 (by rfl) (by decide) (by decide)).1

/-- C4: whenever the discovered file list contains at least one MP3
file, `filesToUse` is exactly the MP3 subset (so the rotation pool uses
the preferred extension exclusively); with no MP3 present it is exactly
the OGG subset; and everything `createAmbientSound` puts into the
eager pool or the background queue is drawn from `filesToUse`. -/
theorem C4_format_preference (files : List String) :
    (files.any isMp3File = true →
        filesToUse files = files.filter isMp3File
          ∧ ∀ f ∈ filesToUse files, isMp3File f = true)
      ∧ (files.any isMp3File = false →
          filesToUse files = files.filter isOggFile
            ∧ ∀ f ∈ filesToUse files, isOggFile f = true)
      ∧ (∀ (loadOk : String → Bool) (rand : Nat),
          (∀ e ∈ (createAmbientSound ⟨files, loadOk, rand⟩).audioElements,
              e.file ∈ filesToUse files)
            ∧ (∀ f ∈ (createAmbientSound ⟨files, loadOk, rand⟩).remainingFiles,
                f ∈ filesToUse files)) := by
  have hcases : (files.any isMp3File = true
        → filesToUse files = files.filter isMp3File)
      ∧ (files.any isMp3File = false
        → filesToUse files = files.filter isOggFile) := by
    constructor
    · intro h
      rcases List.any_eq_true.mp h with ⟨f, hf, hmp3⟩
      have : 0 < (files.filter isMp3File).length :=
        List.length_pos.mpr (List.ne_nil_of_mem (List.mem_filter.mpr ⟨hf, hmp3⟩))
      simp [filesToUse, this]
    · intro h
      have hnone : ∀ f ∈ files, ¬ isMp3File f = true := by
        intro f hf hmp3
        exact (List.any_eq_true.not.mp (by simp [h])) ⟨f, hf, hmp3⟩
      have : files.filter isMp3File = [] := List.filter_eq_nil_iff.mpr hnone
      simp [filesToUse, this]
  refine ⟨fun h => ⟨hcases.1 h, ?_⟩, fun h => ⟨hcases.2 h, ?_⟩, ?_⟩
  · intro f hf
    rw [hcases.1 h] at hf
    exact List.of_mem_filter hf
  · intro f hf
    rw [hcases.2 h] at hf
    exact List.of_mem_filter hf
  · intro loadOk rand
    rcases hu : filesToUse files with _ | ⟨firstFile, rest⟩
    · constructor <;> intro x hx <;> simp [createAmbientSound, hu] at hx
    · constructor <;> intro x hx
      · by_cases hok : loadOk firstFile = true
        · simp [createAmbientSound, hu, hok] at hx
          simp [hu, hx]
        · simp [createAmbientSound, hu, hok] at hx
      · by_cases hok : loadOk firstFile = true
        · simp [createAmbientSound, hu, hok] at hx
          simp [hu, hx]
        · simp [createAmbientSound, hu, hok] at hx

/-- Witness for C4: a mixed-extension directory with an upper-case MP3
file keeps only the MP3 file. -/
theorem C4_witness :
    filesToUse ["Rain1.MP3", "rain2.ogg"]
      = List.filter isMp3File ["Rain1.MP3", "rain2.ogg"] :=
  ((C4_format_preference ["Rain1.MP3", "rain2.ogg"]).1 (by decide)).1

theorem batchSlicesAux_flatten (files : List String) :
    ∀ (fuel startIndex : Nat), files.length - startIndex ≤ fuel →
      (batchSlicesAux files startIndex fuel).flatten = files.drop startIndex := by
  intro fuel
  induction fuel with
  | zero =>
    intro startIndex h
    have hnil : files.drop startIndex = [] :=
      List.drop_eq_nil_of_le (by omega)
    simp [batchSlicesAux, hnil]
  | succ m ih =>
    intro startIndex h
    by_cases hs : startIndex < files.length
    · have hrec := ih (min (startIndex + 3) files.length) (by omega)
      simp only [batchSlicesAux, hs, if_true, List.flatten_cons]
      rw [hrec]
      have hdd : files.drop (min (startIndex + 3) files.length)
          = (files.drop startIndex).drop
              (min (startIndex + 3) files.length - startIndex) := by
        rw [List.drop_drop]
        congr 1
        omega
      rw [hdd, List.take_append_drop]
    · have hnil : files.drop startIndex = [] :=
        List.drop_eq_nil_of_le (by omega)
      simp [batchSlicesAux, hs, hnil]

theorem batchSlicesAux_length (files : List String) :
    ∀ (fuel startIndex : Nat), files.length - startIndex ≤ fuel →
      (batchSlicesAux files startIndex fuel).length
        = (files.length - startIndex + 2) / 3 := by
  intro fuel
  induction fuel with
  | zero =>
    intro startIndex h
    simp [batchSlicesAux]
    omega
  | succ m ih =>
    intro startIndex h
    by_cases hs : startIndex < files.length
    · have hrec := ih (min (startIndex + 3) files.length) (by omega)
      simp only [batchSlicesAux, hs, if_true, List.length_cons]
      rw [hrec]
      omega
    · simp [batchSlicesAux, hs]
      omega

theorem batchSlicesAux_sizes (files : List String) :
    ∀ (fuel startIndex : Nat),
      ∀ b ∈ batchSlicesAux files startIndex fuel,
        0 < b.length ∧ b.length ≤ 3 := by
  intro fuel
  induction fuel with
  | zero => intro startIndex b hb; simp [batchSlicesAux] at hb
  | succ m ih =>
    intro startIndex b hb
    by_cases hs : startIndex < files.length
    · simp only [batchSlicesAux, hs, if_true, List.mem_cons] at hb
      rcases hb with hb | hb
      · subst hb
        constructor
        · simp [List.length_take, List.length_drop]
          omega
        · simp [List.length_take]
          omega
      · exact ih _ b hb
    · simp [batchSlicesAux, hs] at hb

theorem batchSlices_flatten (files : List String) :
    (batchSlices files).flatten = files := by
  simpa using batchSlicesAux_flatten files files.length 0 (by omega)

theorem batchSlices_length (files : List String) :
    (batchSlices files).length = (files.length + 2) / 3 := by
  simpa using batchSlicesAux_length files files.length 0 (by omega)

theorem runAllBatches_eq (loadOk : String → Bool) (pool : List AudioElement)
    (batches : List (List String)) :
    runAllBatches loadOk pool batches
      = pool ++ (batches.flatten.map (loadSingleAudioFile loadOk)).filterMap id := by
  induction batches generalizing pool with
  | nil => simp [runAllBatches]
  | cons b bs ih =>
    simp only [runAllBatches, List.foldl_cons] at ih ⊢
    rw [ih, runBatch, List.flatten_cons, List.map_append, List.filterMap_append,
      List.append_assoc]

theorem filterMap_loadSingle_all_ok (loadOk : String → Bool)
    (hok : ∀ f, loadOk f = true) (files : List String) :
    (files.map (loadSingleAudioFile loadOk)).filterMap id
      = files.map AudioElement.mk := by
  induction files with
  | nil => simp
  | cons f t ih => simp [loadSingleAudioFile, hok f, ih]

/-- Counterexample to C5 as stated: with 12 discovered files the code
loads 1 file eagerly and batches the remaining 11 at size 3, which gives
4 background batches, not the 5 batches the claim asserts. -/
theorem C5_counterexample :
    (batchSlices (createAmbientSound
        ⟨twelveFiles, fun _ => true, 0⟩).remainingFiles).length = 4
      ∧ ¬ (batchSlices (createAmbientSound
          ⟨twelveFiles, fun _ => true, 0⟩).remainingFiles).length = 5 := by
  constructor <;> decide

/-- C5 (amended): a 12-file channel loads exactly 1 asset eagerly; the
remaining 11 files load in batches of size at most 3 — 4 batches, with
500 ms delays between consecutive batches totalling 1500 ms (within the
claimed ≈2.5 s) — after which all 12 assets are in the pool. -/
theorem C5_batched_loading (files : List String) (loadOk : String → Bool)
    (rand : Nat) (h12 : files.length = 12)
    (hmp3 : ∀ f ∈ files, isMp3File f = true)
    (hok : ∀ f, loadOk f = true) :
    (createAmbientSound ⟨files, loadOk, rand⟩).audioElements.length = 1
      ∧ (createAmbientSound ⟨files, loadOk, rand⟩).loaded = true
      ∧ (createAmbientSound ⟨files, loadOk, rand⟩).remainingFiles.length = 11
      ∧ (batchSlices
          (createAmbientSound ⟨files, loadOk, rand⟩).remainingFiles).length = 4
      ∧ (∀ b ∈ batchSlices
            (createAmbientSound ⟨files, loadOk, rand⟩).remainingFiles,
          0 < b.length ∧ b.length ≤ 3)
      ∧ totalBatchDelayMs
          (createAmbientSound ⟨files, loadOk, rand⟩).remainingFiles = 1500
      ∧ totalBatchDelayMs
          (createAmbientSound ⟨files, loadOk, rand⟩).remainingFiles ≤ 2500
      ∧ (runAllBatches loadOk
          (createAmbientSound ⟨files, loadOk, rand⟩).audioElements
          (batchSlices
            (createAmbientSound ⟨files, loadOk, rand⟩).remainingFiles)).length
        = 12 := by
  have hne : files ≠ [] := by
    intro hnil
    rw [hnil] at h12
    simp at h12
  obtain ⟨f, t, hft⟩ := List.exists_cons_of_ne_nil hne
  subst hft
  have hfilter : (f :: t).filter isMp3File = f :: t :=
    List.filter_eq_self.mpr hmp3
  have hfu : filesToUse (f :: t) = f :: t := by
    simp only [filesToUse, hfilter]
    rw [if_pos]
    simp
  have hcs : createAmbientSound ⟨f :: t, loadOk, rand⟩
      = ⟨[⟨f⟩], f :: t, true, t, [f]⟩ := by
    simp [createAmbientSound, hfu, hok f]
  have ht : t.length = 11 := by
    simpa using h12
  rw [hcs]
  refine ⟨by simp, by simp, by simpa using ht, ?_, ?_, ?_, ?_, ?_⟩
  · simp [batchSlices_length, ht]
  · intro b hb
    exact batchSlicesAux_sizes t _ _ b hb
  · simp [totalBatchDelayMs, batchSlices_length, ht]
  · simp [totalBatchDelayMs, batchSlices_length, ht]
  · rw [runAllBatches_eq, batchSlices_flatten,
      filterMap_loadSingle_all_ok loadOk hok t]
    simp [ht]

/-- Witness for C5 (amended), at the concrete 12-file directory. -/
theorem C5_witness :
    (createAmbientSound ⟨twelveFiles, fun _ => true, 0⟩).audioElements.length
      = 1 :=
  (C5_batched_loading twelveFiles (fun _ => true) 0 (by decide) (by decide)
    (fun _ => rfl)).1

/-- C6: batch loading is all-settled, not fail-fast: a successful file
in a batch always reaches the pool no matter which sibling loads fail; a
failed file contributes nothing to the pool; and a full background pass
visits every file exactly once (the flattened batches are exactly the
file list), so no failed load is ever re-attempted. -/
theorem C6_all_settled (loadOk : String → Bool) (pool : List AudioElement)
    (batch : List String) (files : List String) :
    (∀ f ∈ batch, loadOk f = true →
        (⟨f⟩ : AudioElement) ∈ runBatch loadOk pool batch)
      ∧ (∀ f, loadOk f = false →
          ∀ e ∈ runBatch loadOk pool batch, e.file = f → e ∈ pool)
      ∧ (batchSlices files).flatten = files
      ∧ runAllBatches loadOk pool (batchSlices files)
        = pool ++ (files.map (loadSingleAudioFile loadOk)).filterMap id := by
  refine ⟨?_, ?_, batchSlices_flatten files, ?_⟩
  · intro f hf hok
    apply List.mem_append_right
    apply List.mem_filterMap.mpr
    refine ⟨some ⟨f⟩, ?_, rfl⟩
    apply List.mem_map.mpr
    exact ⟨f, hf, by simp [loadSingleAudioFile, hok]⟩
  · intro f hfail e he hfile
    rcases List.mem_append.mp he with hp | hq
    · exact hp
    · exfalso
      rcases List.mem_filterMap.mp hq with ⟨a, ha, hid⟩
      rcases List.mem_map.mp ha with ⟨g, _, hga⟩
      by_cases hg : loadOk g = true
      · rw [← hga] at hid
        simp [loadSingleAudioFile, hg] at hid
        rw [← hid] at hfile
        simp at hfile
        rw [hfile] at hg
        rw [hg] at hfail
        exact Bool.true_eq_false.mp hfail
      · rw [← hga] at hid
        simp [loadSingleAudioFile, hg] at hid
  · rw [runAllBatches_eq, batchSlices_flatten]

/-- Witness for C6: with one failing sibling in the batch, the
successful file still reaches the pool. -/
theorem C6_witness :
    (⟨"a.mp3"⟩ : AudioElement) ∈ runBatch mixedOk [] ["a.mp3", "bad.ogg"] :=
  (C6_all_settled mixedOk [] ["a.mp3", "bad.ogg"] []).1 "a.mp3" (by decide)
    (by decide)

theorem toUint8_le (x : ℚ) : toUint8 x ≤ 255 := by
  have h1 : ratTrunc x % 256 < 256 :=
    Int.emod_lt_of_pos _ (by norm_num)
  have h2 : 0 ≤ ratTrunc x % 256 :=
    Int.emod_nonneg _ (by norm_num)
  simp only [toUint8]
  omega

theorem addChannelFrom_le (env : VizEnv) (k : Nat) (volume : ℚ) :
    ∀ (i : Nat) (buf : List Nat),
      ∀ x ∈ addChannelFrom env k volume i buf, x ≤ 255 := by
  intro i buf
  induction buf generalizing i with
  | nil => intro x hx; simp [addChannelFrom] at hx
  | cons v rest ih =>
    intro x hx
    simp only [addChannelFrom, List.mem_cons] at hx
    rcases hx with hx | hx
    · rw [hx]; exact toUint8_le _
    · exact ih (i + 1) x hx

theorem addChannelFrom_length (env : VizEnv) (k : Nat) (volume : ℚ) :
    ∀ (i : Nat) (buf : List Nat),
      (addChannelFrom env k volume i buf).length = buf.length := by
  intro i buf
  induction buf generalizing i with
  | nil => simp [addChannelFrom]
  | cons v rest ih => simp [addChannelFrom, ih]

theorem mixFold_flag (env : VizEnv) (sounds : List Sound) :
    ∀ (buf : List Nat) (b : Bool) (k : Nat),
      (sounds.foldl (mixStep env) (buf, b, k)).2.1
        = (b || sounds.any isActiveSound) := by
  induction sounds with
  | nil => intro buf b k; simp
  | cons s rest ih =>
    intro buf b k
    by_cases ha : isActiveSound s = true
    · simp [mixStep, ha, ih]
    · simp only [Bool.not_eq_true] at ha
      simp [mixStep, ha, ih]

theorem mixFold_bounds (env : VizEnv) (sounds : List Sound) :
    ∀ (buf : List Nat) (b : Bool) (k : Nat),
      buf.length = 256 → (∀ x ∈ buf, x ≤ 255) →
        (sounds.foldl (mixStep env) (buf, b, k)).1.length = 256
          ∧ ∀ x ∈ (sounds.foldl (mixStep env) (buf, b, k)).1, x ≤ 255 := by
  induction sounds with
  | nil => intro buf b k hl hb; exact ⟨hl, hb⟩
  | cons s rest ih =>
    intro buf b k hl hb
    by_cases ha : isActiveSound s = true
    · simp only [List.foldl_cons, mixStep, ha, if_true]
      exact ih _ _ _
        (by rw [addChannelData, addChannelFrom_length]; exact hl)
        (fun x hx => addChannelFrom_le env k s.volume 0 buf x hx)
    · simp only [List.foldl_cons, mixStep, ha, if_false]
      exact ih _ _ _ hl hb

theorem isActiveSound_iff (s : Sound) :
    isActiveSound s = true ↔ (s.isPlaying = true ∧ 0 < s.volume) := by
  simp [isActiveSound]

/-- C7 (amended): `getCombinedAudioData` returns `null` exactly when no
channel has both `isPlaying` and `volume > 0`; whenever some channel has
both, it returns a 256-entry buffer.  (The claim's stronger reading —
any channel with `volume > 0` alone forces a buffer — is refuted by
`C7_counterexample`.) -/
theorem C7_no_signal_iff (env : VizEnv) (sounds : List Sound) :
    (getCombinedAudioData env sounds = none
        ↔ ∀ s ∈ sounds, ¬ (s.isPlaying = true ∧ 0 < s.volume))
      ∧ ((∃ s ∈ sounds, s.isPlaying = true ∧ 0 < s.volume) →
          ∃ buf, getCombinedAudioData env sounds = some buf
            ∧ buf.length = 256)
      ∧ ((∀ s ∈ sounds, s.volume = 0) →
          getCombinedAudioData env sounds = none) := by
  have hflag := mixFold_flag env sounds (List.replicate 256 0) false 0
  have hbounds := mixFold_bounds env sounds (List.replicate 256 0) false 0
    (List.length_replicate 256 0)
    (by intro x hx; rw [List.eq_of_mem_replicate hx]; omega)
  cases habol : sounds.any isActiveSound with
  | false =>
    have hnone : getCombinedAudioData env sounds = none := by
      rw [habol] at hflag
      simp only [Bool.or_false] at hflag
      simp only [getCombinedAudioData]
      rw [if_neg]
      rw [hflag]
      simp
    have hforall : ∀ s ∈ sounds, ¬ (s.isPlaying = true ∧ 0 < s.volume) := by
      intro s hs hcontra
      have htrue : sounds.any isActiveSound = true :=
        List.any_eq_true.mpr ⟨s, hs, (isActiveSound_iff s).mpr hcontra⟩
      rw [habol] at htrue
      exact Bool.false_ne_true htrue
    refine ⟨⟨fun _ => hforall, fun _ => hnone⟩, ?_, fun _ => hnone⟩
    rintro ⟨s, hs, hactive⟩
    exact absurd hactive (hforall s hs)
  | true =>
    have hsome : getCombinedAudioData env sounds
        = some (sounds.foldl (mixStep env)
            (List.replicate 256 0, false, 0)).1 := by
      rw [habol] at hflag
      simp only [Bool.or_true] at hflag
      simp only [getCombinedAudioData]
      rw [if_pos hflag]
    obtain ⟨s, hs, hact⟩ := List.any_eq_true.mp habol
    refine ⟨⟨?_, ?_⟩, ?_, ?_⟩
    · intro h
      rw [hsome] at h
      exact Option.noConfusion h
    · intro hforall
      exact absurd ((isActiveSound_iff s).mp hact) (hforall s hs)
    · intro _
      exact ⟨_, hsome, hbounds.1⟩
    · intro hzero
      have hiff := (isActiveSound_iff s).mp hact
      rw [hzero s hs] at hiff
      exact absurd hiff.2 (lt_irrefl 0)

/-- Counterexample to C7 as stated: a mixer state containing a channel
with strictly positive volume for which `getCombinedAudioData`
nevertheless returns the no-signal value, because the channel is not
playing (`isPlaying && volume > 0` is the code's filter). -/
theorem C7_counterexample :
    0 < stuckSound.volume
      ∧ getCombinedAudioData envViz0 [stuckSound] = none := by
  constructor
  · norm_num [stuckSound]
  · rfl

theorem prod_nonneg_amplitude (a b c v : ℚ) (ha1 : -1 ≤ a) (hb1 : -1 ≤ b)
    (hc0 : 0 ≤ c) (hv : 0 ≤ v) :
    0 ≤ v * 255 * (6/10 + 4/10 * a) * (8/10 + 3/10 * b)
      * (7/10 + 3/10 * c) := by
  have h1 : (0 : ℚ) ≤ 6/10 + 4/10 * a := by linarith
  have h2 : (0 : ℚ) ≤ 8/10 + 3/10 * b := by linarith
  have h3 : (0 : ℚ) ≤ 7/10 + 3/10 * c := by linarith
  have h4 : (0 : ℚ) ≤ v * 255 := by linarith
  exact mul_nonneg (mul_nonneg (mul_nonneg h4 h1) h2) h3

theorem channelAmplitude_jitter_nonneg (env : VizEnv) (volume : ℚ)
    (i k : Nat) (hsin : ∀ x, -1 ≤ env.sin x ∧ env.sin x ≤ 1)
    (hrand : ∀ k i, 0 ≤ env.rand k i ∧ env.rand k i ≤ 1)
    (hvol : 0 ≤ volume) :
    0 ≤ channelAmplitude env volume i * (7/10 + 3/10 * env.rand k i) := by
  simp only [channelAmplitude]
  exact prod_nonneg_amplitude _ _ _ _ (hsin _).1 (hsin _).1 (hrand k i).1 hvol

theorem le_toUint8_min (v : Nat) (y : ℚ) (hv : v ≤ 255) (hy : (v : ℚ) ≤ y) :
    v ≤ toUint8 (min 255 y) := by
  have hymin : (v : ℚ) ≤ min 255 y := le_min (by exact_mod_cast hv) hy
  have hx255 : min 255 y ≤ 255 := min_le_left _ _
  have hge0 : (0 : ℚ) ≤ min 255 y := le_trans (by positivity) hymin
  have htr : ratTrunc (min 255 y) = Int.floor (min 255 y) := by
    simp [ratTrunc, not_lt.mpr hge0]
  have hfl : (v : ℤ) ≤ Int.floor (min 255 y) := by
    rw [Int.le_floor]
    exact_mod_cast hymin
  have hfu : Int.floor (min 255 y) ≤ 255 := by
    have h := Int.floor_le_floor hx255
    simpa using h
  have h0 : (0 : ℤ) ≤ Int.floor (min 255 y) :=
    le_trans (by exact_mod_cast Nat.zero_le v) hfl
  have hmod : Int.floor (min 255 y) % 256 = Int.floor (min 255 y) :=
    Int.emod_eq_of_lt h0 (by omega)
  simp only [toUint8, htr, hmod]
  omega

theorem addChannelFrom_ge (env : VizEnv) (k : Nat) (vol : ℚ)
    (hsin : ∀ x, -1 ≤ env.sin x ∧ env.sin x ≤ 1)
    (hrand : ∀ k i, 0 ≤ env.rand k i ∧ env.rand k i ≤ 1)
    (hvol : 0 ≤ vol) :
    ∀ (i : Nat) (buf : List Nat), (∀ x ∈ buf, x ≤ 255) →
      List.Forall₂ (· ≤ ·) buf (addChannelFrom env k vol i buf) := by
  intro i buf
  induction buf generalizing i with
  | nil => intro h; simp [addChannelFrom]
  | cons v rest ih =>
    intro hb
    simp only [addChannelFrom]
    apply List.Forall₂.cons
    · apply le_toUint8_min v _ (hb v (by simp))
      have hamp := channelAmplitude_jitter_nonneg env vol i k hsin hrand hvol
      linarith
    · exact ih (i + 1) (fun x hx => hb x (by simp [hx]))

theorem mixStep_skip (env : VizEnv) (acc : List Nat × Bool × Nat)
    (s : Sound) (h : s.volume = 0) : mixStep env acc s = acc := by
  have hact : isActiveSound s = false := by
    simp [isActiveSound, h]
  simp [mixStep, hact]

/-- C8: whenever `getCombinedAudioData` returns a buffer, the buffer has
exactly 256 entries, each in 0–255 (the `Math.min(255, …)` clamp and the
`Uint8Array` store keep every entry in byte range for any oracle);
accumulation is saturating, never wrapping — adding an active channel
never decreases any entry (given the real bounds on `Math.sin` and
`Math.random`); and a channel with volume 0 contributes nothing: it is
skipped outright. -/
theorem C8_buffer_clamped_saturating (env : VizEnv) (sounds : List Sound)
    (hsin : ∀ x, -1 ≤ env.sin x ∧ env.sin x ≤ 1)
    (hrand : ∀ k i, 0 ≤ env.rand k i ∧ env.rand k i ≤ 1) :
    (∀ buf, getCombinedAudioData env sounds = some buf →
        buf.length = 256 ∧ ∀ x ∈ buf, x ≤ 255)
      ∧ (∀ (k : Nat) (vol : ℚ) (buf : List Nat), 0 ≤ vol →
          (∀ x ∈ buf, x ≤ 255) →
          List.Forall₂ (· ≤ ·) buf (addChannelData env k vol buf))
      ∧ (∀ (s0 : Sound) (rest : List Sound), s0.volume = 0 →
          getCombinedAudioData env (s0 :: rest)
            = getCombinedAudioData env rest) := by
  refine ⟨?_, ?_, ?_⟩
  · intro buf h
    have hbounds := mixFold_bounds env sounds (List.replicate 256 0) false 0
      (List.length_replicate 256 0)
      (by intro x hx; rw [List.eq_of_mem_replicate hx]; omega)
    by_cases hfl : (sounds.foldl (mixStep env)
        (List.replicate 256 0, false, 0)).2.1 = true
    · simp only [getCombinedAudioData, hfl, if_true, Option.some_inj] at h
      rw [← h]
      exact hbounds
    · rw [getCombinedAudioData] at h
      rw [if_neg hfl] at h
      exact absurd h (by simp)
  · intro k vol buf hvol hb
    exact addChannelFrom_ge env k vol hsin hrand hvol 0 buf hb
  · intro s0 rest h
    simp only [getCombinedAudioData, List.foldl_cons]
    rw [mixStep_skip env _ s0 h]

/-- Witness for C8: the zero-volume channel of `initialSound`
contributes nothing to the sampler output. -/
theorem C8_witness :
    getCombinedAudioData envViz0 [initialSound ⟨1⟩]
      = getCombinedAudioData envViz0 [] :=
  (C8_buffer_clamped_saturating envViz0 []
      (fun x => by constructor <;> norm_num [envViz0])
      (fun k i => by constructor <;> norm_num [envViz0])).2.2
    (initialSound ⟨1⟩) [] rfl

/-- Counterexample to C2 as stated: stopping the channel right after its
rotation fired does cancel the pending timeout, yet the crossfade
interval already in progress still executes its asset switch against the
stopped channel (`isPlaying = false`) and even reschedules a rotation
timeout on it. -/
theorem C2_counterexample :
    (rotStopSound (stepTask chanMidFade RotTask.timerFire).1).isPlaying
        = false
      ∧ (rotStopSound
          (stepTask chanMidFade RotTask.timerFire).1).rotationTimeout = false
      ∧ (runTasks (rotStopSound (stepTask chanMidFade RotTask.timerFire).1)
          [RotTask.fadeTick 0]).2 = [RotEvent.assetSwitch false]
      ∧ (runTasks (rotStopSound (stepTask chanMidFade RotTask.timerFire).1)
          [RotTask.fadeTick 0]).1.rotationTimeout = true := by
  norm_num [chanMidFade, stepTask, rotStopSound, runTasks]
  decide

/-- A step on a fully quiescent stopped channel does nothing. -/
theorem stepTask_quiescent (c : RotChannel) (t : RotTask)
    (htimer : c.rotationTimeout = false) (hfade : c.fade = none) :
    stepTask c t = (c, []) := by
  cases t with
  | timerFire => simp [stepTask, htimer]
  | fadeTick rand => simp [stepTask, hfade]

/-- C2 (amended): `stopSound` synchronously cancels the channel-owned
pending rotation timeout before returning (`rotationTimeout` is `none`
afterwards), so if no crossfade was in progress at the moment of
stopping, no rotation step of any kind ever executes afterwards; a
crossfade already in progress, however, is not cancelled (see
`C2_counterexample`). -/
theorem C2_cancel_pending_rotation (c : RotChannel) (tasks : List RotTask)
    (hfade : c.fade = none) :
    (rotStopSound c).rotationTimeout = false
      ∧ (rotStopSound c).isPlaying = false
      ∧ (runTasks (rotStopSound c) tasks).2 = []
      ∧ (runTasks (rotStopSound c) tasks).1 = rotStopSound c := by
  have hstop : (rotStopSound c).rotationTimeout = false
      ∧ (rotStopSound c).isPlaying = false
      ∧ (rotStopSound c).fade = none := by
    simp only [rotStopSound]
    split_ifs <;> simp_all
  refine ⟨hstop.1, hstop.2.1, ?_⟩
  have hrun : ∀ (ts : List RotTask) (d : RotChannel),
      d.rotationTimeout = false → d.fade = none →
        runTasks d ts = (d, []) := by
    intro ts
    induction ts with
    | nil => intro d _ _; rfl
    | cons t rest ih =>
      intro d h1 h2
      simp only [runTasks, stepTask_quiescent d t h1 h2]
      rw [ih d h1 h2]
      simp
  have h := hrun tasks (rotStopSound c) hstop.1 hstop.2.2
  rw [h]
  exact ⟨rfl, rfl⟩

/-- Witness for C2 (amended): stopping the playing `chanMidFade` channel
(no fade in progress) cancels its timer and nothing ever fires. -/
theorem C2_witness :
    (rotStopSound chanMidFade).rotationTimeout = false
      ∧ (rotStopSound chanMidFade).isPlaying = false
      ∧ (runTasks (rotStopSound chanMidFade)
          [RotTask.timerFire, RotTask.fadeTick 0]).2 = []
      ∧ (runTasks (rotStopSound chanMidFade)
          [RotTask.timerFire, RotTask.fadeTick 0]).1
        = rotStopSound chanMidFade :=
  C2_cancel_pending_rotation chanMidFade [RotTask.timerFire, RotTask.fadeTick 0]
    rfl

theorem startSound_loaded (rand : Nat) (s : Sound) :
    ((startSound rand s).1).loaded = s.loaded := by
  simp only [startSound]
  split_ifs <;> simp_all

theorem startSound_elements (rand : Nat) (s : Sound) :
    ((startSound rand s).1).audioElements = s.audioElements := by
  simp only [startSound]
  split_ifs <;> simp_all

theorem stopSound_loaded (s : Sound) : (stopSound s).loaded = s.loaded := by
  simp only [stopSound]
  split_ifs <;> simp_all

theorem startStep_loaded (env : LoadEnv) (p : ℚ) (s : Sound) :
    ((startStep env p s).1).loaded = s.loaded := by
  simp only [startStep]
  split_ifs <;> simp [startSound_loaded]

theorem stopStep_loaded (p : ℚ) (s : Sound) :
    (stopStep p s).loaded = s.loaded := by
  simp only [stopStep]
  split_ifs <;> simp [stopSound_loaded]

theorem stopStep_pos (p : ℚ) (s : Sound) (hp : 0 < p) :
    stopStep p s = s := by
  rw [stopStep, if_neg]
  rintro ⟨h0, _⟩
  exact (ne_of_gt hp) h0

theorem lazyLoadStep_skip (env : LoadEnv) (p : ℚ) (s : Sound)
    (h : s.loaded = true) : lazyLoadStep env p s = (s, []) := by
  simp [lazyLoadStep, h]

theorem lazyLoadStep_run (env : LoadEnv) (p : ℚ) (s : Sound)
    (h1 : 0 < p) (h2 : s.loaded = false) :
    lazyLoadStep env p s
      = ({ s with audioElements := (createAmbientSound env).audioElements,
                  availableFiles := (createAmbientSound env).availableFiles,
                  loaded := (createAmbientSound env).loaded },
        (createAmbientSound env).loadsAttempted) := by
  simp [lazyLoadStep, h1, h2]

theorem startSound_cases (rand : Nat) (s : Sound) (hip : s.isPlaying = false)
    (hl : s.loaded = true) :
    ((startSound rand s).1).isPlaying = true
      ∨ ((startSound rand s).1 = s ∧ s.audioElements.length = 0) := by
  simp only [startSound, hip, hl]
  split_ifs <;> simp_all

theorem startStep_snd_not_pos (env : LoadEnv) (p : ℚ) (s : Sound)
    (hp : ¬ 0 < p) : (startStep env p s).2 = false := by
  simp [startStep, hp]

theorem startStep_snd_not_loaded (env : LoadEnv) (p : ℚ) (s : Sound)
    (hl : s.loaded = false) : (startStep env p s).2 = false := by
  simp [startStep, hl]

theorem startStep_snd_playing (env : LoadEnv) (p : ℚ) (s : Sound)
    (hip : s.isPlaying = true) : (startStep env p s).2 = false := by
  simp [startStep, hip]

theorem startStep_snd_empty (env : LoadEnv) (p : ℚ) (s : Sound)
    (hlen : s.audioElements.length = 0) : (startStep env p s).2 = false := by
  simp only [startStep, startSound, hlen]
  split_ifs <;> simp_all

/-- The first projection of `setVolume`, decomposed into its blocks. -/
theorem setVolume_decomp (env : LoadEnv) (s : Sound) (p : ℚ) :
    setVolume env s p
      = (stopStep p (startStep env p
            (lazyLoadStep env p
              { s with volume := p / 100 * s.config.baseGain }).1).1,
          ⟨(lazyLoadStep env p
              { s with volume := p / 100 * s.config.baseGain }).2,
            (startStep env p
              (lazyLoadStep env p
                { s with volume := p / 100 * s.config.baseGain }).1).2⟩) := rfl

/-- After a `setVolume` call with positive percent, the channel is
either loaded (when the eager load ever succeeded) or carries exactly
the load result of `createAmbientSound`. -/
theorem setVolume_fst_loaded (env : LoadEnv) (s : Sound) (p : ℚ)
    (hp : 0 < p) :
    (setVolume env s p).1.loaded = true
      ∨ (setVolume env s p).1.loaded = (createAmbientSound env).loaded := by
  rw [setVolume_decomp]
  simp only [stopStep_loaded, startStep_loaded]
  by_cases h : s.loaded = true
  · left
    rw [lazyLoadStep_skip env p _ (by simpa using h)]
    simpa using h
  · right
    rw [lazyLoadStep_run env p _ hp (by simpa using Bool.not_eq_true s.loaded ▸ h)]

/-- After a `setVolume` call with positive percent that left the channel
loaded, the channel is playing — unless it has no audio elements at all
(the `startSound` early return). -/
theorem setVolume_pos_loaded_playing (env : LoadEnv) (s : Sound) (p : ℚ)
    (hp : 0 < p) (hl : (setVolume env s p).1.loaded = true) :
    (setVolume env s p).1.isPlaying = true
      ∨ (setVolume env s p).1.audioElements.length = 0 := by
  rw [setVolume_decomp] at hl ⊢
  rw [stopStep_pos p _ hp] at hl ⊢
  simp only [startStep_loaded] at hl
  set t := (lazyLoadStep env p
    { s with volume := p / 100 * s.config.baseGain }).1 with ht
  by_cases hcond : 0 < p ∧ t.isPlaying = false ∧ t.loaded = true
  · rw [startStep, if_pos hcond]
    rcases startSound_cases env.randNat t hcond.2.1 hcond.2.2 with h | ⟨heq, hlen⟩
    · exact Or.inl h
    · right
      rw [heq, hlen]
  · rw [startStep, if_neg hcond]
    rcases Bool.eq_false_or_eq_true t.isPlaying with hip | hip
    · exact Or.inl hip
    · exact absurd ⟨hp, hip, hl⟩ hcond

/-- C9 (amended): a second identical `setVolume` call never schedules an
additional rotation timer; and it triggers no additional asset loads
provided the first call left the channel loaded.  (When the first eager
load failed the second call re-attempts it — see `C9_counterexample`.) -/
theorem C9_idempotent_same_percent (env : LoadEnv) (s : Sound) (p : ℚ) :
    (setVolume env (setVolume env s p).1 p).2.timerScheduled = false
      ∧ ((setVolume env s p).1.loaded = true →
          (setVolume env (setVolume env s p).1 p).2.loadsAttempted = []) := by
  constructor
  · by_cases hp : 0 < p
    · by_cases hl : (setVolume env s p).1.loaded = true
      · rcases setVolume_pos_loaded_playing env s p hp hl with hip | hlen
        · conv_lhs => rw [setVolume_decomp]
          rw [lazyLoadStep_skip env p _ (by simpa using hl)]
          exact startStep_snd_playing env p _ (by simpa using hip)
        · conv_lhs => rw [setVolume_decomp]
          rw [lazyLoadStep_skip env p _ (by simpa using hl)]
          exact startStep_snd_empty env p _ (by simpa using hlen)
      · have hcs : (createAmbientSound env).loaded = false := by
          rcases setVolume_fst_loaded env s p hp with h | h
          · exact absurd h hl
          · rw [← h]
            simpa using hl
        conv_lhs => rw [setVolume_decomp]
        rw [lazyLoadStep_run env p _ hp (by simpa using hl)]
        exact startStep_snd_not_loaded env p _ (by simpa using hcs)
    · conv_lhs => rw [setVolume_decomp]
      exact startStep_snd_not_pos env p _ hp
  · intro hl
    conv_lhs => rw [setVolume_decomp]
    rw [lazyLoadStep_skip env p _ (by simpa using hl)]

/-- Counterexample to C9 as stated: on a channel whose eager load
failed, the second identical `setVolume(…, 40)` call does trigger an
additional load attempt of the same file. -/
theorem C9_counterexample :
    (setVolume envFail (setVolume envFail (initialSound ⟨1⟩) 40).1
        40).2.loadsAttempted = ["a.mp3"]
      ∧ ["a.mp3"] ≠ ([] : List String) := by
  constructor
  · decide
  · decide

/-- Witness for C9 (amended): with a successful eager load, the second
identical call schedules no timer and attempts no loads. -/
theorem C9_witness :
    (setVolume ⟨["a.mp3"], fun _ => true, 0⟩
        (setVolume ⟨["a.mp3"], fun _ => true, 0⟩ (initialSound ⟨1⟩) 40).1
        40).2.timerScheduled = false
      ∧ ((setVolume ⟨["a.mp3"], fun _ => true, 0⟩ (initialSound ⟨1⟩)
            40).1.loaded = true →
          (setVolume ⟨["a.mp3"], fun _ => true, 0⟩
              (setVolume ⟨["a.mp3"], fun _ => true, 0⟩ (initialSound ⟨1⟩)
                40).1 40).2.loadsAttempted = []) :=
  C9_idempotent_same_percent ⟨["a.mp3"], fun _ => true, 0⟩ (initialSound ⟨1⟩) 40

/-- Witness for C7 (amended): a mixer whose only channel has volume 0
yields the no-signal value. -/
theorem C7_witness :
    getCombinedAudioData envViz0 [initialSound ⟨1⟩] = none :=
  (C7_no_signal_iff envViz0 [initialSound ⟨1⟩]).2.2
    (by intro s hs; rw [List.mem_singleton.mp hs]; rfl)

end AmbientSounds
